import Mathlib

/-!
Verification of the ontology-scoped extraction pipeline of
`src/python-services/nlp-service/main.py` (NLP entity-extraction service).

The Python service is shallowly embedded below: JSON values become an
inductive type, Python dicts become association lists with insertion-order
semantics (overwrite-in-place, append-on-new-key), fallible code returns
`Except`, and the two sources of nondeterminism — the external LLM call and
the random UUID suffixes — become explicit parameters.
-/

/-- JSON values, as produced by `json.loads` on the LLM response text.
Numbers are modelled as rationals (Python floats/ints in this service are
exact small decimals such as `0.9`). -/
inductive Json where
  | null
  | bool (b : Bool)
  | num (q : ℚ)
  | str (s : String)
  | arr (items : List Json)
  | obj (fields : List (String × Json))

/-- Lookup in a Python dict (association list keyed by strings, first match). -/
def dictGet {β : Type} : List (String × β) → String → Option β
  | [], _ => none
  | p :: rest, k => if p.1 = k then some p.2 else dictGet rest k

/-- Python dict assignment `d[k] = v`: overwrite in place when the key exists
(keeping its position); otherwise append at the end (insertion order). -/
def dictSet {β : Type} : List (String × β) → String → β → List (String × β)
  | [], k, v => [(k, v)]
  | p :: rest, k, v => if p.1 = k then (k, v) :: rest else p :: dictSet rest k v

/-- Python `k in d`. -/
def hasKey {β : Type} (l : List (String × β)) (k : String) : Bool :=
  (dictGet l k).isSome

/-- Field access on a JSON object (`None` on other shapes or a missing key). -/
def jsonGet (j : Json) (k : String) : Option Json :=
  match j with
  | .obj fields => dictGet fields k
  | _ => none

/-- Python truthiness of a JSON value. -/
def pyTruthy : Json → Bool
  | .null => false
  | .bool b => b
  | .num q => q ≠ 0
  | .str s => s ≠ ""
  | .arr items => ¬ items.isEmpty
  | .obj fields => ¬ fields.isEmpty

/-- Coarse model of Python `str()` applied to a JSON value (exact for strings,
which is the only case the service's identifier generation meets in practice). -/
def pyStr : Json → String
  | .str s => s
  | .num q => toString q
  | .bool true => "True"
  | .bool false => "False"
  | .null => "None"
  | .arr _ => "[list]"
  | .obj _ => "[dict]"

/-- Is the needle a contiguous sublist of the haystack (Python `needle in hay`
on strings, for a nonempty needle)? -/
def subChars (needle : List Char) : List Char → Bool
  | [] => needle.isEmpty
  | c :: rest => needle.isPrefixOf (c :: rest) || subChars needle rest

/-- Python `needle in hay` on strings. -/
def strContainsSub (hay needle : String) : Bool :=
  subChars needle.data hay.data

/-- Model of Python `str.replace(c, r)` for a single-character pattern:
replace every occurrence of `c` by `r`. -/
def pyReplace1 (c r : Char) (s : String) : String :=
  String.mk (s.data.map fun x => if x = c then r else x)

/-- Model of Python `str.lower()` (charwise lowering). -/
def pyLower (s : String) : String :=
  String.mk (s.data.map Char.toLower)

/-- The normalization used by the service's identifier generators:
`.replace(" ", "_").replace("-", "_").lower()`. -/
def pyNormalizeId (s : String) : String :=
  pyLower (pyReplace1 '-' '_' (pyReplace1 ' ' '_' s))

-- ### Ontology registry (main.py lines 87-109, 266-318, 879-974)

/-- The compact ontology payload: `e` is the entity-type list, `r` the table of
relationship patterns (intended triples `[source, relationship, target]`). -/
structure CompactOntology where
  e : List String
  r : List (List String)

/-- A stored ontology configuration (the dicts kept in `ONTOLOGIES`). -/
structure OntologyConfig where
  entity_types : List String
  relationship_types : List String
  property_types : List String
  entity_descriptions : List (String × String)
  relationship_descriptions : List (String × String)
  compact_ontology : Option CompactOntology := none

def DEFAULT_ONTOLOGY_NAME : String := "default"

/-- The module-level legacy globals (`VALID_ONTOLOGY_TYPES` and friends). -/
structure GlobalState where
  VALID_ONTOLOGY_TYPES : List String := []
  VALID_RELATIONSHIP_TYPES : List String := []
  PROPERTY_ENTITY_TYPES : List String := []
  ENTITY_DESCRIPTIONS : List (String × String) := []
  RELATIONSHIP_DESCRIPTIONS : List (String × String) := []

/-- The fallback configuration built from the legacy globals
(`get_ontology_by_name`, final branch). -/
def legacyConfig (g : GlobalState) : OntologyConfig :=
  { entity_types := g.VALID_ONTOLOGY_TYPES
    relationship_types := g.VALID_RELATIONSHIP_TYPES
    property_types := g.PROPERTY_ENTITY_TYPES
    entity_descriptions := g.ENTITY_DESCRIPTIONS
    relationship_descriptions := g.RELATIONSHIP_DESCRIPTIONS
    compact_ontology := none }

/-- Python `ontology or DEFAULT_ONTOLOGY_NAME` (`None` and `""` are falsy). -/
def nameOrDefault (ontology : Option String) : String :=
  match ontology with
  | none => DEFAULT_ONTOLOGY_NAME
  | some s => if s = "" then DEFAULT_ONTOLOGY_NAME else s

/-- `get_ontology_by_name` (main.py lines 267-297): exact match, then the
`"default"` configuration, then the legacy globals. Total — never raises. -/
def get_ontology_by_name (onts : List (String × OntologyConfig)) (g : GlobalState)
    (ontology : Option String) : OntologyConfig :=
  let name := nameOrDefault ontology
  match dictGet onts name with
  | some cfg => cfg
  | none =>
      match dictGet onts DEFAULT_ONTOLOGY_NAME with
      | some cfg => cfg
      | none => legacyConfig g

/-- The `/ontologies` request body (`OntologyUpdateRequest`). -/
structure OntologyUpdateRequest where
  entity_types : List String := []
  relationship_types : List String := []
  property_types : List String := []
  entity_descriptions : Option (List (String × String)) := none
  relationship_descriptions : Option (List (String × String)) := none
  compact_ontology : Option CompactOntology := none
  ontology : Option String := none

/-- `if len(rel) == 3: relationship_types.append(rel[1])` — the middle element
of a length-3 row, skipping rows of any other length. -/
def tripleMiddle : List String → Option String
  | [_, b, _] => some b
  | _ => none

/-- The configuration stored for a compact-form registration
(main.py lines 898-920). -/
def compactConfig (c : CompactOntology) : OntologyConfig :=
  { entity_types := c.e
    relationship_types := c.r.filterMap tripleMiddle
    property_types := []
    entity_descriptions := []
    relationship_descriptions := []
    compact_ontology := some c }

/-- The configuration stored for a full-form registration
(main.py lines 946-960). -/
def fullConfig (r : OntologyUpdateRequest) : OntologyConfig :=
  { entity_types := r.entity_types
    relationship_types := r.relationship_types
    property_types := r.property_types
    entity_descriptions := r.entity_descriptions.getD []
    relationship_descriptions := r.relationship_descriptions.getD []
    compact_ontology := none }

/-- The legacy globals rewritten by a registration ("backward compatibility"). -/
def globalsFrom (cfg : OntologyConfig) : GlobalState :=
  { VALID_ONTOLOGY_TYPES := cfg.entity_types
    VALID_RELATIONSHIP_TYPES := cfg.relationship_types
    PROPERTY_ENTITY_TYPES := cfg.property_types
    ENTITY_DESCRIPTIONS := cfg.entity_descriptions
    RELATIONSHIP_DESCRIPTIONS := cfg.relationship_descriptions }

/-- `update_ontologies` (main.py lines 879-974): store the configuration under
the requested name (default name when absent), compact form taking precedence;
also rewrite the legacy globals. Last write for a name wins (`dictSet`). -/
def update_ontologies (onts : List (String × OntologyConfig))
    (r : OntologyUpdateRequest) : List (String × OntologyConfig) × GlobalState :=
  let name := nameOrDefault r.ontology
  match r.compact_ontology with
  | some c => (dictSet onts name (compactConfig c), globalsFrom (compactConfig c))
  | none => (dictSet onts name (fullConfig r), globalsFrom (fullConfig r))

-- ### Identifier generation (main.py lines 129-169)

/-- The deterministic part of `generate_entity_id`:
`f"{entity_type}_{value}".replace(" ", "_").replace("-", "_").lower()`. -/
def entityIdBase (entity_type value : String) : String :=
  pyNormalizeId (entity_type ++ "_" ++ value)

/-- `generate_entity_id` (main.py lines 129-144). The 8-character slice of a
fresh `uuid4` is passed in as `suffix` — randomness made explicit. -/
def generate_entity_id (entity_type value suffix : String) : String :=
  entityIdBase entity_type value ++ "_" ++ suffix

/-- `generate_relationship_id` (main.py lines 146-160). -/
def generate_relationship_id (source target rel_type suffix : String) : String :=
  "rel_" ++ pyNormalizeId (source ++ "_" ++ rel_type ++ "_" ++ target) ++ "_" ++ suffix

-- ### Prompt builder (main.py lines 527-610 and 390-473; identical text)

/-- Core entity types: `[t for t in entity_types if t not in property_types]`. -/
def core_entity_types (cfg : OntologyConfig) : List String :=
  cfg.entity_types.filter (fun t => ¬ cfg.property_types.contains t)

/-- The fallback relationship patterns generated from the relationship-type
names when no compact ontology is stored (main.py lines 544-556). -/
def fallbackPatterns (relationship_types : List String) : List (List String) :=
  (relationship_types.map (fun rel =>
    if strContainsSub rel "Value" || strContainsSub rel "Amount" then
      [["Awarder", rel, "MonetaryValue"], ["Tenderer", rel, "MonetaryValue"]]
    else if strContainsSub rel "Winner" then
      [["AwardDecision", rel, "Winner"]]
    else if strContainsSub rel "Award" then
      [["Awarder", rel, "Tenderer"], ["Awarder", rel, "Winner"]]
    else [])).flatten

/-- The compact ontology embedded in the prompt (main.py lines 531-556):
`e` is the core entity types; `r` comes from the stored compact ontology when
present, else from the fallback patterns. -/
def prompt_compact_ontology (cfg : OntologyConfig) : CompactOntology :=
  { e := core_entity_types cfg
    r := match cfg.compact_ontology with
         | some c => c.r
         | none => fallbackPatterns cfg.relationship_types }

/-- Rendering of a JSON string list (models `json.dumps` output shape). -/
def renderStrList (l : List String) : String :=
  "[" ++ String.intercalate ", " (l.map (fun s => "\"" ++ s ++ "\"")) ++ "]"

/-- Rendering of the compact ontology (models `json.dumps(compact_ontology)`;
the exact whitespace of Python's serializer is not reproduced). -/
def renderCompact (c : CompactOntology) : String :=
  "\x7b\"e\": " ++ renderStrList c.e ++ ", \"r\": " ++
    "[" ++ String.intercalate ", " (c.r.map renderStrList) ++ "]" ++ "\x7d"

/-- The prompt prose before the serialized ontology (abbreviated stand-in for
the literal instruction text of main.py lines 558-562). -/
def promptPart1 : String :=
  "You are an expert knowledge graph builder. Extract entities and relationships from the following text, using the provided ontology as a guide. Ontology: "

/-- The prompt prose between the ontology and the analyzed text (stands in for
the extraction rules and output-format section, main.py lines 564-607). -/
def promptPart2 : String :=
  " CRITICAL INSTRUCTIONS: always extract the actual text from the document; never use the entity type name as the entity value; fold property-like values into the properties bag; invent Inferred-suffixed labels when nothing matches; respond with a valid JSON object with entities and relationships. Text to Analyze: --- "

/-- The prompt prose after the analyzed text. -/
def promptPart3 : String := " ---"

/-- The prompt sent to the LLM, a pure function of the resolved configuration
and the input text (main.py lines 558-610). -/
def buildPrompt (cfg : OntologyConfig) (text : String) : String :=
  promptPart1 ++ renderCompact (prompt_compact_ontology cfg) ++ promptPart2 ++ text ++ promptPart3

-- ### LLM graph extraction (main.py lines 379-513 async, 516-658 sync)

/-- Outcome of the external LLM call, the nondeterministic input of the
extraction step. `response` carries the outcome of `json.loads` on the
(nonempty) response text: `none` models a raised `JSONDecodeError`. -/
inductive LlmResult where
  | failure (msg : String)
  | noContent
  | response (parsed : Option Json)

/-- Which exception the `except` block of the sync extractor caught. -/
inductive FailCause where
  | transport (msg : String)
  | jsonParse
  | iterTypeError

/-- Errors raised (as `HTTPException`) by the extraction functions. -/
inductive ExtractError where
  | clientNotConfigured
  | ontologyNotInitialized
  | extraction (c : FailCause)

/-- Model of Python's `str(e)` on the caught exception. -/
def failCauseMsg : FailCause → String
  | .transport msg => msg
  | .jsonParse => "Expecting value"
  | .iterTypeError => "object is not iterable"

/-- The dict returned by the sync `extract_graph_with_llm` on success
(no `refinement_info` key on the sync path). -/
structure SyncGraph where
  entities : Json
  relationships : Json

/-- The dict returned by `extract_graph_with_llm_async` (always carries a
`refinement_info` note). -/
structure AsyncGraph where
  entities : Json
  relationships : Json
  refinement_info : String

/-- The `type`/`types` patch of the sync repair (main.py lines 641-644): a
nonempty `types` list overwrites `type` with its first element; when neither
`type` nor `types` is present, `type` becomes the sentinel `"Unknown"`. -/
def repairTypeField (fs : List (String × Json)) : List (String × Json) :=
  match dictGet fs "types" with
  | some (.arr (x :: _)) => dictSet fs "type" x
  | some _ => fs
  | none => if hasKey fs "type" then fs else dictSet fs "type" (.str "Unknown")

/-- The confidence default (`if "confidence" not in entity: ... = 0.9`). -/
def addConfidence (fs : List (String × Json)) : List (String × Json) :=
  if hasKey fs "confidence" then fs else dictSet fs "confidence" (.num (9/10))

/-- Sync repair of one parsed entity (main.py lines 639-646): the type patch
followed by the confidence default. Non-dict items pass through unchanged. -/
def repairEntity (j : Json) : Json :=
  match j with
  | .obj fs => .obj (addConfidence (repairTypeField fs))
  | other => other

/-- Confidence repair of one parsed relationship (main.py lines 647-649); also
the whole of the async entity repair (lines 496-501). -/
def repairConfidence (j : Json) : Json :=
  match j with
  | .obj fs => .obj (addConfidence fs)
  | other => other

/-- Python `for x in v: ...` mutating dict elements in place and returning the
iterated value itself: lists are mapped; iterating a dict yields its keys and a
string yields its characters (none of which are dicts, so the value is
unchanged); other shapes raise `TypeError`. -/
def pyIterRepair (f : Json → Json) (v : Json) : Except Unit Json :=
  match v with
  | .arr items => .ok (.arr (items.map f))
  | .obj fields => .ok (.obj fields)
  | .str s => .ok (.str s)
  | _ => .error ()

/-- `extract_graph_with_llm` (main.py lines 516-658), the sync path used by
`/extract-graph` and `/batch-extract-graph`. `clientConfigured` models the
module-level OpenAI client being non-`None`. Inside the `try` block a raised
`JSONDecodeError` (or `TypeError` from iterating a non-iterable field) is
caught and re-raised as an HTTP 500 `extraction` error. -/
def extract_graph_with_llm (clientConfigured : Bool)
    (onts : List (String × OntologyConfig)) (g : GlobalState)
    (ontology : Option String) (text : String) (llm : LlmResult) :
    Except ExtractError SyncGraph :=
  if clientConfigured then
    let cfg := get_ontology_by_name onts g ontology
    if cfg.entity_types.isEmpty then .error .ontologyNotInitialized
    else
      let _prompt := buildPrompt cfg text
      match llm with
      | .failure msg => .error (.extraction (.transport msg))
      | .noContent => .ok ⟨.arr [], .arr []⟩
      | .response none => .error (.extraction .jsonParse)
      | .response (some j) =>
          match j with
          | .obj fs =>
              let ents := (dictGet fs "entities").getD (.arr [])
              let rels := (dictGet fs "relationships").getD (.arr [])
              match pyIterRepair repairEntity ents, pyIterRepair repairConfidence rels with
              | .ok e, .ok r => .ok ⟨e, r⟩
              | _, _ => .error (.extraction .iterTypeError)
          | _ => .ok ⟨.arr [], .arr []⟩
  else .error .clientNotConfigured

/-- `extract_graph_with_llm_async` (main.py lines 379-513): identical up to the
`try` block, but every exception inside it — transport failure included — is
converted into an empty graph with a diagnostic note, never re-raised. -/
def extract_graph_with_llm_async (clientConfigured : Bool)
    (onts : List (String × OntologyConfig)) (g : GlobalState)
    (ontology : Option String) (text : String) (llm : LlmResult) :
    Except ExtractError AsyncGraph :=
  if clientConfigured then
    let cfg := get_ontology_by_name onts g ontology
    if cfg.entity_types.isEmpty then .error .ontologyNotInitialized
    else
      let _prompt := buildPrompt cfg text
      match llm with
      | .failure msg =>
          .ok ⟨.arr [], .arr [], "LLM graph extraction error: " ++ msg⟩
      | .noContent => .ok ⟨.arr [], .arr [], "LLM parsing failed"⟩
      | .response none =>
          .ok ⟨.arr [], .arr [], "LLM graph extraction error: " ++ failCauseMsg .jsonParse⟩
      | .response (some j) =>
          match j with
          | .obj fs =>
              let ents := (dictGet fs "entities").getD (.arr [])
              let rels := (dictGet fs "relationships").getD (.arr [])
              match pyIterRepair repairConfidence ents, pyIterRepair repairConfidence rels with
              | .ok e, .ok r =>
                  .ok ⟨e, r, "LLM extraction successful using ontology: " ++ nameOrDefault ontology⟩
              | _, _ =>
                  .ok ⟨.arr [], .arr [], "LLM graph extraction error: " ++ failCauseMsg .iterTypeError⟩
          | _ => .ok ⟨.arr [], .arr [], "LLM parsing failed"⟩
  else .error .clientNotConfigured

-- ### Object registry and provenance (main.py lines 171-264, 1106-1187)

/-- One record of `EXTRACTED_OBJECTS`: the dict stored for an entity
(`type: "entity"`, with `entity_type`/`value`) or a relationship
(`type: "relationship"`, with `relationship_type`/`source`/`target`). -/
structure StoredObject where
  kind : String
  entity_type : Option Json := none
  relationship_type : Option Json := none
  value : Option Json := none
  source : Option Json := none
  target : Option Json := none
  graph_data : Json
  extraction_timestamp : ℚ

/-- The process-wide `EXTRACTED_OBJECTS` dict, insertion-ordered. -/
abbrev ObjRegistry : Type := List (String × StoredObject)

/-- Description lookup for an entity type
(`entity_descriptions.get(entity_type, f"Entity of type {entity_type}")`). -/
def entityDescription (descs : List (String × String)) (ty : Json) : String :=
  match ty with
  | .str s => (dictGet descs s).getD ("Entity of type " ++ s)
  | other => "Entity of type " ++ pyStr other

/-- Description lookup for a relationship type. -/
def relationshipDescription (descs : List (String × String)) (ty : Json) : String :=
  match ty with
  | .str s => (dictGet descs s).getD ("Relationship of type " ++ s)
  | other => "Relationship of type " ++ pyStr other

/-- The `graph_data` dict built for an entity (main.py lines 189-208). Raises
(`KeyError`) only when `start` is present and non-null but `end` is missing.
The `ontology_source` lookup `ontology_config.get("ontology_name", "default")`
always yields `"default"`: stored configurations never carry that key. -/
def entityGraphDataJson (fs : List (String × Json)) (cfg : OntologyConfig)
    (now : ℚ) : Except Unit Json :=
  let ty := (dictGet fs "type").getD (.str "")
  let v := (dictGet fs "value").getD (.str "")
  let base : List (String × Json) :=
    [("node_type", ty), ("node_value", v),
     ("description", .str (entityDescription cfg.entity_descriptions ty)),
     ("confidence", (dictGet fs "confidence").getD (.num 0)),
     ("properties", (dictGet fs "properties").getD (.obj [])),
     ("extraction_method", .str "nlp_service"),
     ("timestamp", .num now),
     ("ontology_source", .str "default")]
  match (dictGet fs "start").getD .null with
  | .null =>
      let withPos := base
      match (dictGet fs "context").getD .null with
      | ctx => .ok (.obj (if pyTruthy ctx then withPos ++ [("context", ctx)] else withPos))
  | startVal =>
      match dictGet fs "end" with
      | none => .error ()
      | some endVal =>
          let withPos := base ++ [("text_position", .obj [("start", startVal), ("end", endVal)])]
          match (dictGet fs "context").getD .null with
          | ctx => .ok (.obj (if pyTruthy ctx then withPos ++ [("context", ctx)] else withPos))

/-- The registry write of `create_entity_graph_data` (main.py lines 210-219):
store under the entity's id when it is truthy. Non-string ids are keyed by
their string rendering (no claim distinguishes them). -/
def storeEntity (fs : List (String × Json)) (gd : Json) (now : ℚ)
    (reg : ObjRegistry) : ObjRegistry :=
  let record : StoredObject :=
    { kind := "entity"
      entity_type := some ((dictGet fs "type").getD (.str ""))
      value := some ((dictGet fs "value").getD (.str ""))
      graph_data := gd
      extraction_timestamp := now }
  match (dictGet fs "id").getD (.str "") with
  | .str i => if i = "" then reg else dictSet reg i record
  | other => if pyTruthy other then dictSet reg (pyStr other) record else reg

/-- `create_entity_graph_data` (main.py lines 171-221): build the provenance
`graph_data` dict and write the record into `EXTRACTED_OBJECTS`. -/
def create_entity_graph_data (fs : List (String × Json)) (cfg : OntologyConfig)
    (now : ℚ) (reg : ObjRegistry) : Except Unit (Json × ObjRegistry) :=
  match entityGraphDataJson fs cfg now with
  | .error e => .error e
  | .ok gd => .ok (gd, storeEntity fs gd now reg)

/-- The `graph_data` dict built for a relationship (main.py lines 240-250). -/
def relationshipGraphDataJson (fs : List (String × Json)) (cfg : OntologyConfig)
    (now : ℚ) : Json :=
  let ty := (dictGet fs "type").getD (.str "")
  .obj [("edge_type", ty),
        ("source", (dictGet fs "source").getD (.str "")),
        ("target", (dictGet fs "target").getD (.str "")),
        ("description", .str (relationshipDescription cfg.relationship_descriptions ty)),
        ("confidence", (dictGet fs "confidence").getD (.num 0)),
        ("explanation", (dictGet fs "explanation").getD (.str "")),
        ("extraction_method", .str "nlp_service"),
        ("timestamp", .num now),
        ("ontology_source", .str "default")]

/-- `create_relationship_graph_data` (main.py lines 223-264). -/
def create_relationship_graph_data (fs : List (String × Json)) (cfg : OntologyConfig)
    (now : ℚ) (reg : ObjRegistry) : Json × ObjRegistry :=
  let gd := relationshipGraphDataJson fs cfg now
  let record : StoredObject :=
    { kind := "relationship"
      relationship_type := some ((dictGet fs "type").getD (.str ""))
      source := some ((dictGet fs "source").getD (.str ""))
      target := some ((dictGet fs "target").getD (.str ""))
      graph_data := gd
      extraction_timestamp := now }
  match (dictGet fs "id").getD (.str "") with
  | .str i => if i = "" then (gd, reg) else (gd, dictSet reg i record)
  | other => if pyTruthy other then (gd, dictSet reg (pyStr other) record) else (gd, reg)

/-- The response of `GET /object/{object_id}`. -/
structure ObjectLookup where
  object_id : String
  object_data : StoredObject
  retrieved_at : ℚ

/-- `get_object_by_id` (main.py lines 1109-1122): the stored record when the id
is present, a 404 `HTTPException` otherwise. -/
def get_object_by_id (reg : ObjRegistry) (object_id : String) (now : ℚ) :
    Except String ObjectLookup :=
  match dictGet reg object_id with
  | some od => .ok ⟨object_id, od, now⟩
  | none => .error ("Object with ID '" ++ object_id ++ "' not found")

/-- One row of the `/search-objects` response. -/
structure SearchHit where
  id : String
  kind : String
  value : Json
  entity_type : Json
  relationship_type : Json
  extracted_at : ℚ
  graph_data : Json

/-- `obj_info` built for a matching record (main.py lines 1165-1173). -/
def toHit (id : String) (od : StoredObject) : SearchHit :=
  { id := id
    kind := od.kind
    value := od.value.getD (.str "")
    entity_type := od.entity_type.getD (.str "")
    relationship_type := od.relationship_type.getD (.str "")
    extracted_at := od.extraction_timestamp
    graph_data := od.graph_data }

/-- The type filter (`if object_type and obj_data.get("type") != object_type:
continue`); an empty filter string is falsy and filters nothing. -/
def typePass (tf : Option String) (od : StoredObject) : Bool :=
  match tf with
  | none => true
  | some t => if t = "" then true else od.kind = t

/-- The value filter: case-insensitive substring match on the record's value.
Python calls `.lower()` on `obj_data.get("value", "")`, which raises
(`AttributeError`) when a stored value is a non-string JSON value. -/
def valuePass (vf : Option String) (od : StoredObject) : Except Unit Bool :=
  match vf with
  | none => .ok true
  | some v =>
      if v = "" then .ok true
      else
        match od.value.getD (.str "") with
        | .str s => .ok (strContainsSub (pyLower s) (pyLower v))
        | _ => .error ()

/-- The scan loop of `search_objects` (main.py lines 1152-1177): `count` is
`len(results)` so far; after appending a hit the loop breaks as soon as
`len(results) >= limit`. -/
def searchGo (tf vf : Option String) (limit : Int) :
    List (String × StoredObject) → Nat → Except Unit (List SearchHit)
  | [], _ => .ok []
  | p :: rest, count =>
      if typePass tf p.2 then
        match valuePass vf p.2 with
        | .error e => .error e
        | .ok true =>
            if limit ≤ (count : Int) + 1 then .ok [toHit p.1 p.2]
            else
              match searchGo tf vf limit rest (count + 1) with
              | .error e => .error e
              | .ok tl => .ok (toHit p.1 p.2 :: tl)
        | .ok false => searchGo tf vf limit rest count
      else searchGo tf vf limit rest count

/-- `search_objects` (main.py lines 1144-1187); the returned hit list (the
endpoint wraps it with counts and the echoed filters). -/
def search_objects (reg : ObjRegistry) (object_type : Option String)
    (value : Option String) (limit : Int) : Except Unit (List SearchHit) :=
  searchGo object_type value limit reg 0

-- ### Batch extraction (main.py lines 976-1075)

/-- `get_database_name` (main.py lines 111-126): request parameter first, then
the `NEO4J_DATABASE` environment variable, both under truthiness. -/
def get_database_name (database_param env : Option String) : Option String :=
  let fromEnv := match env with
    | some e => if e = "" then none else some e
    | none => none
  match database_param with
  | some p => if p = "" then fromEnv else some p
  | none => fromEnv

/-- The pydantic `Entity` model (main.py lines 39-51): `id`/`type`/`value` are
required strings; the rest optional. `end` is a Lean keyword, hence `endPos`. -/
structure EntityRec where
  id : String
  type : String
  value : String
  confidence : Option ℚ := none
  properties : Option Json := none
  start : Option Int := none
  endPos : Option Int := none
  spacy_label : Option String := none
  context : Option String := none
  graph_data : Option Json := none

/-- The pydantic `Relationship` model (main.py lines 53-61). -/
structure RelRec where
  id : String
  source : String
  target : String
  type : String
  confidence : Option ℚ := none
  explanation : Option String := none
  graph_data : Option Json := none

/-- Validation of a required `str` field. -/
def reqStr (v : Option Json) : Except Unit String :=
  match v with
  | some (.str s) => .ok s
  | _ => .error ()

/-- Validation of an `Optional[str]` field. -/
def optStr (v : Option Json) : Except Unit (Option String) :=
  match v with
  | none => .ok none
  | some .null => .ok none
  | some (.str s) => .ok (some s)
  | _ => .error ()

/-- Validation of an `Optional[float]` field. -/
def optNum (v : Option Json) : Except Unit (Option ℚ) :=
  match v with
  | none => .ok none
  | some .null => .ok none
  | some (.num q) => .ok (some q)
  | _ => .error ()

/-- Validation of an `Optional[int]` field. -/
def optInt (v : Option Json) : Except Unit (Option Int) :=
  match v with
  | none => .ok none
  | some .null => .ok none
  | some (.num q) => if q.den = 1 then .ok (some q.num) else .error ()
  | _ => .error ()

/-- Validation of an `Optional[Dict[str, Any]]` field. -/
def optObj (v : Option Json) : Except Unit (Option Json) :=
  match v with
  | none => .ok none
  | some .null => .ok none
  | some (.obj fs) => .ok (some (.obj fs))
  | _ => .error ()

/-- `Entity(**e)`: pydantic validation of one entity dict (extra keys are
ignored; a missing or non-string required field raises `ValidationError`). -/
def toEntityRec (j : Json) : Except Unit EntityRec :=
  match j with
  | .obj fs => do
      let id ← reqStr (dictGet fs "id")
      let ty ← reqStr (dictGet fs "type")
      let v ← reqStr (dictGet fs "value")
      let conf ← optNum (dictGet fs "confidence")
      let props ← optObj (dictGet fs "properties")
      let st ← optInt (dictGet fs "start")
      let en ← optInt (dictGet fs "end")
      let lbl ← optStr (dictGet fs "spacy_label")
      let ctx ← optStr (dictGet fs "context")
      let gd ← optObj (dictGet fs "graph_data")
      .ok { id := id, type := ty, value := v, confidence := conf, properties := props,
            start := st, endPos := en, spacy_label := lbl, context := ctx, graph_data := gd }
  | _ => .error ()

/-- `Relationship(**r)`: pydantic validation of one relationship dict. -/
def toRelRec (j : Json) : Except Unit RelRec :=
  match j with
  | .obj fs => do
      let id ← reqStr (dictGet fs "id")
      let src ← reqStr (dictGet fs "source")
      let tgt ← reqStr (dictGet fs "target")
      let ty ← reqStr (dictGet fs "type")
      let conf ← optNum (dictGet fs "confidence")
      let expl ← optStr (dictGet fs "explanation")
      let gd ← optObj (dictGet fs "graph_data")
      .ok { id := id, source := src, target := tgt, type := ty,
            confidence := conf, explanation := expl, graph_data := gd }
  | _ => .error ()

/-- Sequenced validation of a list (the `[Entity(**e) for e in entities]`
comprehension: the first invalid element raises). -/
def validateAll {α : Type} (f : Json → Except Unit α) : List Json → Except Unit (List α)
  | [] => .ok []
  | j :: rest =>
      match f j with
      | .error e => .error e
      | .ok a =>
          match validateAll f rest with
          | .error e => .error e
          | .ok tl => .ok (a :: tl)

/-- Python `for x in v` collecting the items: lists yield elements, dicts yield
their keys, strings their characters; other shapes raise `TypeError`. -/
def pyIterItems (v : Json) : Except Unit (List Json) :=
  match v with
  | .arr items => .ok items
  | .obj fields => .ok (fields.map (fun p => .str p.1))
  | .str s => .ok (s.data.map (fun c => .str (String.mk [c])))
  | _ => .error ()

/-- `if "id" not in entity: entity["id"] = generate_entity_id(...)` (main.py
lines 1006-1007): stamp a generated id drawing the k-th random slice when the
entity lacks one; return the (possibly) updated dict and next draw index. -/
def stampEntityId (sup : Nat → String) (fs : List (String × Json)) (k : Nat) :
    (List (String × Json)) × Nat :=
  if hasKey fs "id" then (fs, k)
  else
    (dictSet fs "id"
       (.str (generate_entity_id (pyStr ((dictGet fs "type").getD (.str "")))
          (pyStr ((dictGet fs "value").getD (.str ""))) (sup k))), k + 1)

/-- `if "id" not in rel: rel["id"] = generate_relationship_id(...)` (main.py
lines 1013-1018). -/
def stampRelId (sup : Nat → String) (fs : List (String × Json)) (k : Nat) :
    (List (String × Json)) × Nat :=
  if hasKey fs "id" then (fs, k)
  else
    (dictSet fs "id"
       (.str (generate_relationship_id (pyStr ((dictGet fs "source").getD (.str "")))
          (pyStr ((dictGet fs "target").getD (.str "")))
          (pyStr ((dictGet fs "type").getD (.str ""))) (sup k))), k + 1)

/-- Stamp ids and graph data onto the extracted entities (main.py lines
1004-1008). `sup k` is the k-th random uuid slice drawn in this request;
partial registry writes made before a raised exception persist, so the
registry is threaded outside the `Except`. -/
def stampEntities (cfg : OntologyConfig) (now : ℚ) (sup : Nat → String) :
    List Json → Nat → ObjRegistry → ObjRegistry × Except Unit (List Json × Nat)
  | [], k, reg => (reg, .ok ([], k))
  | j :: rest, k, reg =>
      match j with
      | .obj fs =>
          match create_entity_graph_data (stampEntityId sup fs k).1 cfg now reg with
          | .error e => (reg, .error e)
          | .ok (gd, reg1) =>
              match stampEntities cfg now sup rest (stampEntityId sup fs k).2 reg1 with
              | (regF, .error e) => (regF, .error e)
              | (regF, .ok (tl, k2)) =>
                  (regF, .ok (.obj (dictSet (stampEntityId sup fs k).1 "graph_data" gd) :: tl, k2))
      | _ => (reg, .error ())

/-- Stamp ids and graph data onto the extracted relationships (main.py lines
1011-1019). -/
def stampRelationships (cfg : OntologyConfig) (now : ℚ) (sup : Nat → String) :
    List Json → Nat → ObjRegistry → ObjRegistry × Except Unit (List Json × Nat)
  | [], k, reg => (reg, .ok ([], k))
  | j :: rest, k, reg =>
      match j with
      | .obj fs =>
          match stampRelationships cfg now sup rest (stampRelId sup fs k).2
              (create_relationship_graph_data (stampRelId sup fs k).1 cfg now reg).2 with
          | (regF, .error e) => (regF, .error e)
          | (regF, .ok (tl, k2)) =>
              (regF, .ok (.obj (dictSet (stampRelId sup fs k).1 "graph_data"
                 (create_relationship_graph_data (stampRelId sup fs k).1 cfg now reg).1) :: tl, k2))
      | _ => (reg, .error ())

/-- The `GraphResponse` pydantic model (main.py lines 63-72). -/
structure GraphResponse where
  request_id : String
  entities : List EntityRec
  relationships : List RelRec
  refinement_info : String
  embedding : Option (List ℚ)
  ontology_used : Option String
  database_used : Option String
  graph_metadata : Json

/-- Everything one batch slot needs besides the shared configuration: its
text, its LLM outcome, its stream of random uuid slices, the request ids drawn
for it (one for the success path, one for the error placeholder), and the
clock reading. -/
structure SlotInput where
  text : String
  llm : LlmResult
  sup : Nat → String
  request_id : String
  err_request_id : String
  now : ℚ

/-- What a slot's pipeline can raise (all caught by the batch loop). -/
inductive SlotError where
  | extract (e : ExtractError)
  | typeError
  | validation

/-- Model of `str(e)` for a caught slot exception. -/
def slotErrMsg : SlotError → String
  | .extract .clientNotConfigured => "OpenAI client not configured."
  | .extract .ontologyNotInitialized => "Ontology not initialized. Please call the /ontologies endpoint first."
  | .extract (.extraction c) => "LLM graph extraction error: " ++ failCauseMsg c
  | .typeError => "object is not iterable"
  | .validation => "validation error"

/-- One slot of the batch loop body (main.py lines 993-1051): extract, stamp
ids and provenance, validate into pydantic models, assemble the response.
`embed` models the optional sentence-embedding model. The registry is threaded
outside the `Except` because writes before a raised exception persist. -/
def processSlot (clientConfigured : Bool) (onts : List (String × OntologyConfig))
    (g : GlobalState) (ontology : Option String) (database_name : Option String)
    (embed : Option (String → List ℚ)) (s : SlotInput) (i : Nat) (reg : ObjRegistry) :
    ObjRegistry × Except SlotError GraphResponse :=
  match extract_graph_with_llm clientConfigured onts g ontology s.text s.llm with
  | .error e => (reg, .error (.extract e))
  | .ok graph =>
      let cfg := get_ontology_by_name onts g ontology
      match pyIterItems graph.entities with
      | .error _ => (reg, .error .typeError)
      | .ok ents =>
          match stampEntities cfg s.now s.sup ents 0 reg with
          | (reg1, .error _) => (reg1, .error .typeError)
          | (reg1, .ok (ents2, k1)) =>
              match pyIterItems graph.relationships with
              | .error _ => (reg1, .error .typeError)
              | .ok rels =>
                  match stampRelationships cfg s.now s.sup rels k1 reg1 with
                  | (reg2, .error _) => (reg2, .error .typeError)
                  | (reg2, .ok (rels2, _)) =>
                      let embedding := embed.map (fun f => f s.text)
                      match validateAll toEntityRec ents2 with
                      | .error _ => (reg2, .error .validation)
                      | .ok entityRecs =>
                          match validateAll toRelRec rels2 with
                          | .error _ => (reg2, .error .validation)
                          | .ok relRecs =>
                              (reg2, .ok
                                { request_id := s.request_id
                                  entities := entityRecs
                                  relationships := relRecs
                                  refinement_info := "Graph generated directly by LLM based on dynamic ontology."
                                  embedding := embedding
                                  ontology_used := ontology
                                  database_used := database_name
                                  graph_metadata := .obj
                                    [("request_id", .str s.request_id),
                                     ("text_length", .num s.text.length),
                                     ("entity_count", .num ents2.length),
                                     ("relationship_count", .num rels2.length),
                                     ("ontology_used", .str (nameOrDefault ontology)),
                                     ("database_used", match database_name with
                                        | some d => .str d | none => .null),
                                     ("extraction_timestamp", .num s.now),
                                     ("has_embedding", .bool embedding.isSome),
                                     ("batch_index", .num i)] })

/-- The placeholder response for a failed slot (main.py lines 1053-1070). -/
def placeholderResponse (ontology database_name : Option String) (s : SlotInput)
    (i : Nat) (e : SlotError) : GraphResponse :=
  { request_id := s.err_request_id
    entities := []
    relationships := []
    refinement_info := "Error processing text: " ++ slotErrMsg e
    embedding := none
    ontology_used := ontology
    database_used := database_name
    graph_metadata := .obj
      [("error", .str (slotErrMsg e)),
       ("text_index", .num i),
       ("extraction_timestamp", .num s.now)] }

/-- The batch loop (main.py lines 991-1071): each slot runs through
`processSlot`; a raised exception is caught and replaced by the placeholder,
and the loop continues with the next slot. -/
def batchGo (clientConfigured : Bool) (onts : List (String × OntologyConfig))
    (g : GlobalState) (ontology database_name : Option String)
    (embed : Option (String → List ℚ)) :
    List SlotInput → Nat → ObjRegistry → List GraphResponse × ObjRegistry
  | [], _, reg => ([], reg)
  | s :: rest, i, reg =>
      let step := processSlot clientConfigured onts g ontology database_name embed s i reg
      let r := match step.2 with
        | .ok out => out
        | .error e => placeholderResponse ontology database_name s i e
      let tail := batchGo clientConfigured onts g ontology database_name embed rest (i + 1) step.1
      (r :: tail.1, tail.2)

/-- `batch_extract_graph_endpoint` (main.py lines 976-1075). -/
def batch_extract_graph (clientConfigured : Bool) (onts : List (String × OntologyConfig))
    (g : GlobalState) (ontology database_name : Option String)
    (embed : Option (String → List ℚ)) (slots : List SlotInput) (reg : ObjRegistry) :
    List GraphResponse × ObjRegistry :=
  batchGo clientConfigured onts g ontology database_name embed slots 0 reg

-- ### Derived notions used to state the claims

/-- Is the parsed top-level JSON value an object? -/
def isJsonObj : Json → Bool
  | .obj _ => true
  | _ => false

/-- Did the call fail for configuration reasons (HTTP 503 client-unset or
HTTP 400 ontology-empty)? -/
def isConfigErr {α : Type} (r : Except ExtractError α) : Prop :=
  r = .error .clientNotConfigured ∨ r = .error .ontologyNotInitialized

/-- List difference as the spec words it: the elements of `a` not in `b`,
order preserved. -/
def listMinus (a b : List String) : List String :=
  a.filter (fun t => decide (t ∉ b))

/-- Is the stored value field a string (so that the search value filter's
`.lower()` call cannot raise)? -/
def valueIsStrD (od : StoredObject) : Bool :=
  match od.value.getD (.str "") with
  | .str _ => true
  | _ => false

/-- The value filter as a pure predicate (defined only on string-valued
records; elsewhere `false`). -/
def specValuePass (vf : Option String) (od : StoredObject) : Bool :=
  match vf with
  | none => true
  | some v =>
      if v = "" then true
      else
        match od.value.getD (.str "") with
        | .str s => strContainsSub (pyLower s) (pyLower v)
        | _ => false

/-- A record matches the search when it passes both filters. -/
def specMatch (tf vf : Option String) (od : StoredObject) : Bool :=
  typePass tf od && specValuePass vf od

/-- Rewrite the slot-position fields of a response's metadata (`batch_index`
on a success, `text_index` on a placeholder) to position `i`. -/
def withSlotIndex (r : GraphResponse) (i : Nat) : GraphResponse :=
  { r with graph_metadata :=
      match r.graph_metadata with
      | .obj fs =>
          let fs1 := if hasKey fs "batch_index" then dictSet fs "batch_index" (.num i) else fs
          .obj (if hasKey fs1 "text_index" then dictSet fs1 "text_index" (.num i) else fs1)
      | other => other }

/-- The response the batch loop records for one slot at position `i`
(starting from an empty registry; the response is registry-independent). -/
def slotResult (clientConfigured : Bool) (onts : List (String × OntologyConfig))
    (g : GlobalState) (ontology database_name : Option String)
    (embed : Option (String → List ℚ)) (s : SlotInput) (i : Nat) : GraphResponse :=
  match (processSlot clientConfigured onts g ontology database_name embed s i []).2 with
  | .ok r => r
  | .error e => placeholderResponse ontology database_name s i e

/-- The per-slot responses of the batch loop, starting at position `i`. -/
def slotResultsFrom (clientConfigured : Bool) (onts : List (String × OntologyConfig))
    (g : GlobalState) (ontology database_name : Option String)
    (embed : Option (String → List ℚ)) : Nat → List SlotInput → List GraphResponse
  | _, [] => []
  | i, s :: rest =>
      slotResult clientConfigured onts g ontology database_name embed s i ::
        slotResultsFrom clientConfigured onts g ontology database_name embed (i + 1) rest

-- ### Concrete fixtures for witnesses and counterexamples

def gEmpty : GlobalState := {}

/-- A small registered ontology. -/
def cfgD : OntologyConfig :=
  { entity_types := ["Thing"]
    relationship_types := []
    property_types := []
    entity_descriptions := []
    relationship_descriptions := [] }

/-- Another registered ontology, with a property-like type. -/
def cfgA : OntologyConfig :=
  { entity_types := ["Person", "Company", "Email"]
    relationship_types := ["WORKS_AT"]
    property_types := ["Email"]
    entity_descriptions := []
    relationship_descriptions := [] }

def onts0 : List (String × OntologyConfig) := [("default", cfgD)]

def supA : Nat → String := fun _ => "aaaaaaaa"

/-- A well-formed LLM response with one entity and no relationships. -/
def okLlm : LlmResult :=
  .response (some (.obj
    [("entities", .arr [.obj [("value", .str "ACME"), ("type", .str "Company")]]),
     ("relationships", .arr [])]))

def okSlot : SlotInput :=
  { text := "t", llm := okLlm, sup := supA, request_id := "req_ok",
    err_request_id := "req_ok_err", now := 0 }

def failSlot : SlotInput :=
  { text := "u", llm := .failure "boom", sup := supA, request_id := "req_fail",
    err_request_id := "req_fail_err", now := 0 }

def dummyResponse : GraphResponse :=
  { request_id := "", entities := [], relationships := [], refinement_info := ""
    embedding := none, ontology_used := none, database_used := none, graph_metadata := .null }

def dummySlot : SlotInput :=
  { text := "", llm := .noContent, sup := supA, request_id := "", err_request_id := "", now := 0 }

/-- A stored entity record with the given value. -/
def odEnt (v : String) : StoredObject :=
  { kind := "entity", entity_type := some (.str "Company"), value := some (.str v),
    graph_data := .obj [], extraction_timestamp := 0 }

def regCE : ObjRegistry := [("id1", odEnt "alpha")]

def reg5 : ObjRegistry :=
  [("a", odEnt "v1"), ("b", odEnt "v2"), ("c", odEnt "v3"), ("d", odEnt "v4"), ("e", odEnt "v5")]

/-- A stamped entity dict, as left by the pipeline just before provenance. -/
def fsW : List (String × Json) :=
  [("id", .str "company_acme_x"), ("type", .str "Company"), ("value", .str "ACME")]

/-- Its provenance graph data. -/
def gdW : Json :=
  match entityGraphDataJson fsW cfgD 0 with
  | .ok g => g
  | .error _ => .null

-- ## Theorems

-- ### Shared dictionary lemmas

theorem dictGet_dictSet_self {β : Type} (l : List (String × β)) (k : String) (v : β) :
    dictGet (dictSet l k v) k = some v := by
  induction l with
  | nil => simp [dictGet, dictSet]
  | cons p rest ih =>
      by_cases h : p.1 = k <;> simp [dictGet, dictSet, h, ih]

theorem dictGet_dictSet_ne {β : Type} (l : List (String × β)) (k k' : String) (v : β)
    (h : k ≠ k') : dictGet (dictSet l k v) k' = dictGet l k' := by
  induction l with
  | nil => simp [dictGet, dictSet, h]
  | cons p rest ih =>
      by_cases hp : p.1 = k
      · simp [dictGet, dictSet, hp, h]
      · simp only [dictSet, hp, if_false, dictGet]
        by_cases hp' : p.1 = k' <;> simp [hp', ih]

theorem hasKey_dictSet_ne {β : Type} (l : List (String × β)) (k k' : String) (v : β)
    (h : k ≠ k') : hasKey (dictSet l k v) k' = hasKey l k' := by
  simp [hasKey, dictGet_dictSet_ne l k k' v h]

-- ### Repair-pass lemmas

theorem hasKey_repairTypeField (fs : List (String × Json)) :
    hasKey (repairTypeField fs) "confidence" = hasKey fs "confidence" := by
  unfold repairTypeField
  cases hty : dictGet fs "types" with
  | none =>
      by_cases ht : hasKey fs "type"
      · simp [ht]
      · simp only [ht, Bool.false_eq_true, if_false]
        exact hasKey_dictSet_ne fs "type" "confidence" _ (by decide)
  | some t =>
      cases t with
      | arr items =>
          cases items with
          | nil => rfl
          | cons y ys => exact hasKey_dictSet_ne fs "type" "confidence" y (by decide)
      | null => rfl
      | bool b => rfl
      | num q => rfl
      | str s => rfl
      | obj l => rfl

theorem dictGet_addConfidence_missing (fs : List (String × Json))
    (h : hasKey fs "confidence" = false) :
    dictGet (addConfidence fs) "confidence" = some (.num (9/10)) := by
  unfold addConfidence
  rw [h]
  simp only [Bool.false_eq_true, if_false]
  exact dictGet_dictSet_self fs "confidence" _

theorem dictGet_addConfidence_other (fs : List (String × Json)) (k : String)
    (h : k ≠ "confidence") : dictGet (addConfidence fs) k = dictGet fs k := by
  unfold addConfidence
  by_cases hc : hasKey fs "confidence"
  · simp [hc]
  · simp only [hc, Bool.false_eq_true, if_false]
    exact dictGet_dictSet_ne fs "confidence" k _ (fun he => h he.symm)

-- ### Claim C4

/-- Claim C4: ontology resolution returns the configuration registered under
the exact requested name when present, else the `"default"` configuration,
else the legacy-globals fallback; it is total (never raises). Registering a
full-form ontology and resolving its name returns exactly the registered
entity-, relationship- and property-type lists. -/
theorem C4_claim :
    ∀ (onts : List (String × OntologyConfig)) (g : GlobalState) (name : String)
      (cfg d : OntologyConfig) (req : OntologyUpdateRequest),
    (dictGet onts name = some cfg → name ≠ "" →
      get_ontology_by_name onts g (some name) = cfg)
    ∧ (dictGet onts name = none → name ≠ "" →
        dictGet onts DEFAULT_ONTOLOGY_NAME = some d →
        get_ontology_by_name onts g (some name) = d)
    ∧ (∀ ont : Option String, get_ontology_by_name [] g ont = legacyConfig g)
    ∧ (let onts2 :=
         (update_ontologies onts { req with ontology := some name, compact_ontology := none }).1
       let c := get_ontology_by_name onts2 g (some name)
       c.entity_types = req.entity_types
       ∧ c.relationship_types = req.relationship_types
       ∧ c.property_types = req.property_types) := by
  intro onts g name cfg d req
  refine ⟨?_, ?_, ?_, ?_⟩
  · intro h hne
    simp [get_ontology_by_name, nameOrDefault, hne, h]
  · intro h hne hd
    simp [get_ontology_by_name, nameOrDefault, hne, h, hd]
  · intro ont
    cases ont with
    | none => simp [get_ontology_by_name, nameOrDefault, dictGet]
    | some s =>
        by_cases hs : s = "" <;> simp [get_ontology_by_name, nameOrDefault, hs, dictGet]
  · simp only [update_ontologies, get_ontology_by_name]
    rw [dictGet_dictSet_self]
    simp [fullConfig]

/-- Witness for C4 at a concrete registry: resolving a registered name hits it
exactly, and an unregistered name falls back to `"default"`. -/
theorem C4_witness :
    get_ontology_by_name [("A", cfgA), ("default", cfgD)] gEmpty (some "A") = cfgA
    ∧ get_ontology_by_name [("A", cfgA), ("default", cfgD)] gEmpty (some "B") = cfgD :=
  ⟨(C4_claim [("A", cfgA), ("default", cfgD)] gEmpty "A" cfgA cfgD {}).1 rfl (by decide),
   (C4_claim [("A", cfgA), ("default", cfgD)] gEmpty "B" cfgA cfgD {}).2.1 rfl (by decide) rfl⟩

-- ### Claim C10

/-- Claim C10: compact-form registration stores exactly the middle elements of
the length-3 rows of the compact table (in table order, other rows skipped) as
relationship types, always-empty property types and descriptions, and hence
every entity type of a compact-registered ontology is core. -/
theorem C10_claim :
    ∀ (onts : List (String × OntologyConfig)) (name : Option String) (c : CompactOntology),
    dictGet (update_ontologies onts { compact_ontology := some c, ontology := name }).1
        (nameOrDefault name) = some (compactConfig c)
    ∧ (compactConfig c).relationship_types
        = (c.r.filter (fun row => decide (row.length = 3))).map (fun row => row.getD 1 "")
    ∧ (compactConfig c).property_types = []
    ∧ (compactConfig c).entity_descriptions = []
    ∧ (compactConfig c).relationship_descriptions = []
    ∧ core_entity_types (compactConfig c) = c.e := by
  intro onts name c
  refine ⟨?_, ?_, rfl, rfl, rfl, ?_⟩
  · simp only [update_ontologies]
    exact dictGet_dictSet_self onts (nameOrDefault name) (compactConfig c)
  · show c.r.filterMap tripleMiddle = _
    induction c.r with
    | nil => rfl
    | cons row rest ih =>
        match row with
        | [] => simpa [tripleMiddle] using ih
        | [_] => simpa [tripleMiddle] using ih
        | [_, _] => simpa [tripleMiddle] using ih
        | [a, b, c3] => simpa [tripleMiddle] using ih
        | a :: b :: c3 :: d :: t =>
            have hlen : decide ((a :: b :: c3 :: d :: t).length = 3) = false := by
              simp [List.length_cons]
            simpa [tripleMiddle, hlen] using ih
  · simp [core_entity_types, compactConfig, List.contains]

-- ### Claim C9

/-- Claim C9: a generated entity identifier is the `"{type}_{value}"` string
with spaces and hyphens normalized to underscores and lower-cased, followed by
an underscore and the 8-character random slice; the part before the suffix is
a function of `(type, value)` alone (determinism by construction), and two
calls drawing different suffixes produce different identifiers, so ids are not
idempotent across repeated extractions. -/
theorem C9_claim :
    ∀ (t v s1 s2 : String), s1.length = 8 → s2.length = 8 →
    (generate_entity_id t v s1 = entityIdBase t v ++ "_" ++ s1)
    ∧ (entityIdBase t v = pyLower (pyReplace1 '-' '_' (pyReplace1 ' ' '_' (t ++ "_" ++ v))))
    ∧ ((generate_entity_id t v s1).length = (entityIdBase t v).length + 1 + 8)
    ∧ (s1 ≠ s2 → generate_entity_id t v s1 ≠ generate_entity_id t v s2) := by
  intro t v s1 s2 h1 h2
  refine ⟨rfl, rfl, ?_, ?_⟩
  · show (entityIdBase t v ++ "_" ++ s1).length = _
    have hu : ("_" : String).length = 1 := rfl
    rw [String.length_append, String.length_append, h1, hu]
  · intro hne heq
    apply hne
    have hd := congrArg String.data heq
    have hd' : (entityIdBase t v ++ "_").data ++ s1.data
        = (entityIdBase t v ++ "_").data ++ s2.data := hd
    have := List.append_cancel_left hd'
    cases s1
    cases s2
    simp only [String.data] at this
    simp [this]

/-- Witness for C9 at concrete inputs, including a fully evaluated id. -/
theorem C9_witness :
    ("abcd1234" : String).length = 8 ∧ ("efgh5678" : String).length = 8
    ∧ ("abcd1234" : String) ≠ "efgh5678"
    ∧ generate_entity_id "Company" "John-Smith Co" "abcd1234"
        ≠ generate_entity_id "Company" "John-Smith Co" "efgh5678"
    ∧ generate_entity_id "Company" "John-Smith Co" "abcd1234"
        = "company_john_smith_co_abcd1234" :=
  ⟨by decide, by decide, by decide,
   (C9_claim "Company" "John-Smith Co" "abcd1234" "efgh5678"
      (by decide) (by decide)).2.2.2 (by decide),
   by decide⟩

-- ### Claim C8

/-- Claim C8: the prompt embeds, as the allowed entity types, exactly the
configuration's entity types minus its property-like types (order preserved),
and the prompt is assembled purely from the configuration and the input text
(determinism is by construction: `buildPrompt` is a function of the two). -/
theorem C8_claim :
    ∀ (cfg : OntologyConfig) (text : String),
    (prompt_compact_ontology cfg).e = listMinus cfg.entity_types cfg.property_types
    ∧ ∃ pre mid post,
        buildPrompt cfg text
          = pre ++ renderCompact (prompt_compact_ontology cfg) ++ mid ++ text ++ post := by
  intro cfg text
  constructor
  · show core_entity_types cfg = _
    unfold core_entity_types listMinus
    apply List.filter_congr
    intro t _
    by_cases h : t ∈ cfg.property_types <;> simp [h]
  · exact ⟨promptPart1, promptPart2, promptPart3, rfl⟩

-- ### Claim C3

/-- Claim C3: in the sync repair pass, an entity or relationship missing
`confidence` emerges with confidence `0.9`; an entity missing `type` but
carrying a nonempty `types` list emerges with `type` its first element; an
entity with neither `type` nor `types` emerges with `type = "Unknown"`. -/
theorem C3_claim :
    ∀ (fs : List (String × Json)) (x : Json) (rest : List Json),
    (hasKey fs "confidence" = false →
      jsonGet (repairEntity (.obj fs)) "confidence" = some (.num (9/10)))
    ∧ (hasKey fs "confidence" = false →
      jsonGet (repairConfidence (.obj fs)) "confidence" = some (.num (9/10)))
    ∧ (hasKey fs "type" = false → dictGet fs "types" = some (.arr (x :: rest)) →
      jsonGet (repairEntity (.obj fs)) "type" = some x)
    ∧ (hasKey fs "type" = false → hasKey fs "types" = false →
      jsonGet (repairEntity (.obj fs)) "type" = some (.str "Unknown")) := by
  intro fs x rest
  refine ⟨?_, ?_, ?_, ?_⟩
  · intro h
    have h1 : hasKey (repairTypeField fs) "confidence" = false :=
      (hasKey_repairTypeField fs).trans h
    show dictGet (addConfidence (repairTypeField fs)) "confidence" = _
    exact dictGet_addConfidence_missing _ h1
  · intro h
    exact dictGet_addConfidence_missing fs h
  · intro ht hty
    show dictGet (addConfidence (repairTypeField fs)) "type" = some x
    rw [dictGet_addConfidence_other _ "type" (by decide)]
    unfold repairTypeField
    rw [hty]
    exact dictGet_dictSet_self fs "type" x
  · intro ht hty
    show dictGet (addConfidence (repairTypeField fs)) "type" = some (.str "Unknown")
    rw [dictGet_addConfidence_other _ "type" (by decide)]
    have hty' : dictGet fs "types" = none := by
      cases h : dictGet fs "types" with
      | none => rfl
      | some t => rw [hasKey, h] at hty; simp at hty
    unfold repairTypeField
    rw [hty']
    simp only [ht, Bool.false_eq_true, if_false]
    exact dictGet_dictSet_self fs "type" (.str "Unknown")

/-- Witness for C3 at concrete entity dicts. -/
theorem C3_witness :
    jsonGet (repairEntity (.obj [("value", Json.str "v"),
        ("types", .arr [.str "Company", .str "Organization"])])) "type" = some (.str "Company")
    ∧ jsonGet (repairEntity (.obj [("value", Json.str "v")])) "type" = some (.str "Unknown")
    ∧ jsonGet (repairEntity (.obj [("value", Json.str "v")])) "confidence" = some (.num (9/10))
    ∧ jsonGet (repairConfidence (.obj [("source", Json.str "a")])) "confidence"
        = some (.num (9/10)) :=
  ⟨(C3_claim [("value", Json.str "v"), ("types", .arr [.str "Company", .str "Organization"])]
      (.str "Company") [.str "Organization"]).2.2.1 rfl rfl,
   (C3_claim [("value", Json.str "v")] .null []).2.2.2 rfl rfl,
   (C3_claim [("value", Json.str "v")] .null []).1 rfl,
   (C3_claim [("source", Json.str "a")] .null []).2.1 rfl⟩

-- ### Claim C5

theorem sync_not_configErr (onts : List (String × OntologyConfig)) (g : GlobalState)
    (ont : Option String) (text : String) (llm : LlmResult)
    (hEf : (get_ontology_by_name onts g ont).entity_types.isEmpty = false) :
    ¬ isConfigErr (extract_graph_with_llm true onts g ont text llm) := by
  cases llm with
  | failure msg => simp [extract_graph_with_llm, hEf, isConfigErr]
  | noContent => simp [extract_graph_with_llm, hEf, isConfigErr]
  | response p =>
      cases p with
      | none => simp [extract_graph_with_llm, hEf, isConfigErr]
      | some j =>
          cases j with
          | obj fs =>
              cases h1 : pyIterRepair repairEntity ((dictGet fs "entities").getD (.arr [])) <;>
                cases h2 : pyIterRepair repairConfidence
                  ((dictGet fs "relationships").getD (.arr [])) <;>
                simp [extract_graph_with_llm, hEf, isConfigErr, h1, h2]
          | null => simp [extract_graph_with_llm, hEf, isConfigErr]
          | bool b => simp [extract_graph_with_llm, hEf, isConfigErr]
          | num q => simp [extract_graph_with_llm, hEf, isConfigErr]
          | str s => simp [extract_graph_with_llm, hEf, isConfigErr]
          | arr l => simp [extract_graph_with_llm, hEf, isConfigErr]

theorem async_not_configErr (onts : List (String × OntologyConfig)) (g : GlobalState)
    (ont : Option String) (text : String) (llm : LlmResult)
    (hEf : (get_ontology_by_name onts g ont).entity_types.isEmpty = false) :
    ¬ isConfigErr (extract_graph_with_llm_async true onts g ont text llm) := by
  cases llm with
  | failure msg => simp [extract_graph_with_llm_async, hEf, isConfigErr]
  | noContent => simp [extract_graph_with_llm_async, hEf, isConfigErr]
  | response p =>
      cases p with
      | none => simp [extract_graph_with_llm_async, hEf, isConfigErr]
      | some j =>
          cases j with
          | obj fs =>
              cases h1 : pyIterRepair repairConfidence ((dictGet fs "entities").getD (.arr [])) <;>
                cases h2 : pyIterRepair repairConfidence
                  ((dictGet fs "relationships").getD (.arr [])) <;>
                simp [extract_graph_with_llm_async, hEf, isConfigErr, h1, h2]
          | null => simp [extract_graph_with_llm_async, hEf, isConfigErr]
          | bool b => simp [extract_graph_with_llm_async, hEf, isConfigErr]
          | num q => simp [extract_graph_with_llm_async, hEf, isConfigErr]
          | str s => simp [extract_graph_with_llm_async, hEf, isConfigErr]
          | arr l => simp [extract_graph_with_llm_async, hEf, isConfigErr]

/-- Claim C5: single-document graph extraction fails for configuration
reasons exactly when the LLM client is unset or the resolved ontology's
entity-type list is empty; under any other condition neither the sync nor the
async path produces a configuration error. -/
theorem C5_claim :
    ∀ (client : Bool) (onts : List (String × OntologyConfig)) (g : GlobalState)
      (ont : Option String) (text : String) (llm : LlmResult),
    (isConfigErr (extract_graph_with_llm client onts g ont text llm)
      ↔ (client = false ∨ (get_ontology_by_name onts g ont).entity_types = []))
    ∧ (isConfigErr (extract_graph_with_llm_async client onts g ont text llm)
      ↔ (client = false ∨ (get_ontology_by_name onts g ont).entity_types = [])) := by
  intro client onts g ont text llm
  cases client with
  | false =>
      constructor <;>
        simp [extract_graph_with_llm, extract_graph_with_llm_async, isConfigErr]
  | true =>
      by_cases hE : (get_ontology_by_name onts g ont).entity_types.isEmpty = true
      · have hE' : (get_ontology_by_name onts g ont).entity_types = [] := by
          simpa using hE
        constructor <;>
          simp [extract_graph_with_llm, extract_graph_with_llm_async, isConfigErr, hE, hE']
      · have hEf : (get_ontology_by_name onts g ont).entity_types.isEmpty = false := by
          simpa using hE
        have hne : ¬ (get_ontology_by_name onts g ont).entity_types = [] := by
          intro hc
          rw [hc] at hEf
          simp at hEf
        constructor
        · constructor
          · intro h
            exact absurd h (sync_not_configErr onts g ont text llm hEf)
          · rintro (hc | hc)
            · exact absurd hc (by simp)
            · exact absurd hc hne
        · constructor
          · intro h
            exact absurd h (async_not_configErr onts g ont text llm hEf)
          · rintro (hc | hc)
            · exact absurd hc (by simp)
            · exact absurd hc hne

-- ### Claim C1 (corrected)

/-- Counterexample to C1 as stated: on the sync path that serves the
single-document endpoint, an LLM response whose text fails to parse as JSON is
re-raised as a hard HTTP 500 extraction error — it is not recovered into an
empty annotated graph. -/
theorem C1_counterexample :
    extract_graph_with_llm true onts0 gEmpty none "some text" (.response none)
      = .error (.extraction .jsonParse) := rfl

/-- Claim C1 (amended): on the sync path a parse failure is re-raised as a
hard 500 error, and a non-object parse yields the empty graph without any
diagnostic note; on the async path a parse failure, a non-object parse, and
even a transport failure of the LLM call are all recovered into an empty graph
with a non-empty diagnostic note. -/
theorem C1_claim :
    ∀ (onts : List (String × OntologyConfig)) (g : GlobalState) (ont : Option String)
      (text : String) (j : Json) (msg : String),
    (get_ontology_by_name onts g ont).entity_types.isEmpty = false →
    (extract_graph_with_llm true onts g ont text (.response none)
        = .error (.extraction .jsonParse))
    ∧ (isJsonObj j = false →
        extract_graph_with_llm true onts g ont text (.response (some j))
          = .ok ⟨.arr [], .arr []⟩)
    ∧ (extract_graph_with_llm_async true onts g ont text (.response none)
        = .ok ⟨.arr [], .arr [], "LLM graph extraction error: " ++ failCauseMsg .jsonParse⟩)
    ∧ (isJsonObj j = false →
        extract_graph_with_llm_async true onts g ont text (.response (some j))
          = .ok ⟨.arr [], .arr [], "LLM parsing failed"⟩)
    ∧ (extract_graph_with_llm_async true onts g ont text (.failure msg)
        = .ok ⟨.arr [], .arr [], "LLM graph extraction error: " ++ msg⟩)
    ∧ ("LLM graph extraction error: " ++ failCauseMsg .jsonParse ≠ "")
    ∧ ("LLM parsing failed" ≠ "") := by
  intro onts g ont text j msg hEf
  refine ⟨?_, ?_, ?_, ?_, ?_, by decide, by decide⟩
  · simp [extract_graph_with_llm, hEf]
  · intro hj
    cases j <;> simp_all [extract_graph_with_llm, hEf, isJsonObj]
  · simp [extract_graph_with_llm_async, hEf]
  · intro hj
    cases j <;> simp_all [extract_graph_with_llm_async, hEf, isJsonObj]
  · simp [extract_graph_with_llm_async, hEf]

/-- Witness for the amended C1 at a concrete registry and non-object parse. -/
theorem C1_witness :
    extract_graph_with_llm true onts0 gEmpty none "txt" (.response (some (.arr [])))
      = .ok ⟨.arr [], .arr []⟩
    ∧ extract_graph_with_llm_async true onts0 gEmpty none "txt" (.failure "boom")
      = .ok ⟨.arr [], .arr [], "LLM graph extraction error: " ++ "boom"⟩ :=
  ⟨(C1_claim onts0 gEmpty none "txt" (.arr []) "boom" rfl).2.1 rfl,
   (C1_claim onts0 gEmpty none "txt" (.arr []) "boom" rfl).2.2.2.2.1⟩

-- ### Claim C7

/-- Claim C7: object lookup returns the stored provenance record when the id
is present and a 404 error otherwise; immediately after an entity with a
(truthy) id has its provenance record written, looking that id up returns a
record whose stored value and entity type are the entity's own. -/
theorem C7_claim :
    ∀ (reg : ObjRegistry) (oid : String) (od : StoredObject) (now : ℚ)
      (fs : List (String × Json)) (cfg : OntologyConfig) (gd : Json) (reg' : ObjRegistry)
      (i : String),
    (dictGet reg oid = some od → get_object_by_id reg oid now = .ok ⟨oid, od, now⟩)
    ∧ (dictGet reg oid = none →
        get_object_by_id reg oid now = .error ("Object with ID '" ++ oid ++ "' not found"))
    ∧ (dictGet fs "id" = some (.str i) → i ≠ "" →
        create_entity_graph_data fs cfg now reg = .ok (gd, reg') →
        get_object_by_id reg' i now = .ok ⟨i,
          { kind := "entity"
            entity_type := some ((dictGet fs "type").getD (.str ""))
            value := some ((dictGet fs "value").getD (.str ""))
            graph_data := gd
            extraction_timestamp := now }, now⟩) := by
  intro reg oid od now fs cfg gd reg' i
  refine ⟨?_, ?_, ?_⟩
  · intro h
    simp [get_object_by_id, h]
  · intro h
    simp [get_object_by_id, h]
  · intro hid hne hc
    unfold create_entity_graph_data at hc
    cases hgd : entityGraphDataJson fs cfg now with
    | error e =>
        rw [hgd] at hc
        exact absurd hc (by simp)
    | ok g0 =>
        rw [hgd] at hc
        have hpair : (g0, storeEntity fs g0 now reg) = (gd, reg') := by
          injection hc
        have hg : g0 = gd := congrArg Prod.fst hpair
        have hr : storeEntity fs g0 now reg = reg' := congrArg Prod.snd hpair
        subst hg
        rw [← hr]
        unfold storeEntity
        rw [hid]
        simp [hne, get_object_by_id, dictGet_dictSet_self]

/-- Witness for C7: a concrete stamped entity round-trips through the Object
Registry with its value and type intact. -/
theorem C7_witness :
    dictGet fsW "id" = some (.str "company_acme_x")
    ∧ ("company_acme_x" : String) ≠ ""
    ∧ create_entity_graph_data fsW cfgD 0 [] = .ok (gdW, storeEntity fsW gdW 0 [])
    ∧ get_object_by_id (storeEntity fsW gdW 0 []) "company_acme_x" 0 = .ok ⟨"company_acme_x",
        { kind := "entity", entity_type := some (.str "Company"), value := some (.str "ACME"),
          graph_data := gdW, extraction_timestamp := 0 }, 0⟩ :=
  ⟨rfl, by decide, rfl,
   (C7_claim [] "zzz" (odEnt "x") 0 fsW cfgD gdW (storeEntity fsW gdW 0 [])
      "company_acme_x").2.2 rfl (by decide) rfl⟩

-- ### Claim C6 (corrected)

/-- Counterexample to C6 as stated: with `limit = 0` the scan loop still
appends the first matching record before checking the cap, so the search
returns one record — exceeding the limit. -/
theorem C6_counterexample :
    search_objects regCE none none 0 = .ok [toHit "id1" (odEnt "alpha")]
    ∧ ¬ (([toHit "id1" (odEnt "alpha")].length : Int) ≤ 0) :=
  ⟨rfl, by norm_num⟩

theorem valuePass_eq (vf : Option String) (od : StoredObject) (h : valueIsStrD od = true) :
    valuePass vf od = .ok (specValuePass vf od) := by
  cases vf with
  | none => rfl
  | some v =>
      by_cases hv : v = ""
      · simp [valuePass, specValuePass, hv]
      · cases hod : od.value.getD (.str "") with
        | str s => simp [valuePass, specValuePass, hv, hod]
        | null => simp [valueIsStrD, hod] at h
        | bool b => simp [valueIsStrD, hod] at h
        | num q => simp [valueIsStrD, hod] at h
        | arr l => simp [valueIsStrD, hod] at h
        | obj l => simp [valueIsStrD, hod] at h

theorem searchGo_eq (tf vf : Option String) (limit : Int) :
    ∀ (l : List (String × StoredObject)) (k : Nat),
    (∀ p ∈ l, valueIsStrD p.2 = true) → (k : Int) < limit →
    searchGo tf vf limit l k
      = .ok (((l.filter (fun p => specMatch tf vf p.2)).map (fun p => toHit p.1 p.2)).take
          (limit.toNat - k)) := by
  intro l
  induction l with
  | nil =>
      intro k hwt hk
      simp [searchGo]
  | cons p rest ih =>
      intro k hwt hk
      have hwtp : valueIsStrD p.2 = true := hwt p (List.mem_cons_self p rest)
      have hwtr : ∀ q ∈ rest, valueIsStrD q.2 = true :=
        fun q hq => hwt q (List.mem_cons_of_mem p hq)
      unfold searchGo
      rw [valuePass_eq vf p.2 hwtp]
      by_cases ht : typePass tf p.2 = true
      · by_cases hv : specValuePass vf p.2 = true
        · by_cases hstop : limit ≤ (k : Int) + 1
          · have hlim : limit.toNat - k = 1 := by omega
            simp [ht, hv, hstop, List.filter_cons, specMatch, hlim]
          · have hk1 : ((k + 1 : Nat) : Int) < limit := by push_cast; omega
            have hlim : limit.toNat - k = (limit.toNat - (k + 1)) + 1 := by omega
            simp [ht, hv, hstop, List.filter_cons, specMatch, ih (k + 1) hwtr hk1, hlim]
        · have hvf : specValuePass vf p.2 = false := by simpa using hv
          simp [ht, hvf, List.filter_cons, specMatch, ih k hwtr hk]
      · have htf : typePass tf p.2 = false := by simpa using ht
        simp [htf, List.filter_cons, specMatch, ih k hwtr hk]

/-- Claim C6 (amended): for every string-valued registry state and every limit
of at least 1, the search returns exactly the first `limit` records matching
both filters, in insertion order — so it returns only matching records, never
more than `limit` of them (with `limit ≤ 0` the loop still returns the first
matching record, see the counterexample). With `limit = 1` on a registry of
matching records it returns exactly the first matching one. -/
theorem C6_claim :
    ∀ (reg : ObjRegistry) (tf vf : Option String) (limit : Int),
    1 ≤ limit → (∀ p ∈ reg, valueIsStrD p.2 = true) →
    search_objects reg tf vf limit
      = .ok (((reg.filter (fun p => specMatch tf vf p.2)).map (fun p => toHit p.1 p.2)).take
          limit.toNat) := by
  intro reg tf vf limit hl hwt
  have h := searchGo_eq tf vf limit reg 0 hwt (by omega)
  simpa [search_objects] using h

/-- Witness for C6: a registry of five matching records searched with
`limit = 1` returns exactly the first record in insertion order. -/
theorem C6_witness :
    (1 : Int) ≤ 1
    ∧ search_objects reg5 none none 1 = .ok [toHit "a" (odEnt "v1")]
    ∧ (reg5.filter (fun p => specMatch none none p.2)).length = 5 := by
  refine ⟨by norm_num, ?_, by decide⟩
  have h := C6_claim reg5 none none 1 (by norm_num) (by decide)
  rw [h]
  rfl

-- ### Claim C2 (corrected): batch isolation lemmas

theorem create_relationship_fst (fs : List (String × Json)) (cfg : OntologyConfig)
    (now : ℚ) (reg reg' : ObjRegistry) :
    (create_relationship_graph_data fs cfg now reg).1
      = (create_relationship_graph_data fs cfg now reg').1 := by
  unfold create_relationship_graph_data
  cases (dictGet fs "id").getD (.str "") with
  | str i => by_cases hi : i = "" <;> simp [hi]
  | null => rfl
  | bool b => cases b <;> rfl
  | num q => by_cases hq : pyTruthy (.num q) <;> simp [hq]
  | arr l => by_cases hl : pyTruthy (.arr l) <;> simp [hl]
  | obj l => by_cases hl : pyTruthy (.obj l) <;> simp [hl]

theorem stampEntities_snd_indep (cfg : OntologyConfig) (now : ℚ) (sup : Nat → String) :
    ∀ (l : List Json) (k : Nat) (reg reg' : ObjRegistry),
    (stampEntities cfg now sup l k reg).2 = (stampEntities cfg now sup l k reg').2 := by
  intro l
  induction l with
  | nil => intro k reg reg'; rfl
  | cons j rest ih =>
      intro k reg reg'
      cases j with
      | obj fs =>
          simp only [stampEntities, create_entity_graph_data]
          cases hgd : entityGraphDataJson (stampEntityId sup fs k).1 cfg now with
          | error e => rfl
          | ok g0 =>
              dsimp only
              have h1 := ih (stampEntityId sup fs k).2
                (storeEntity (stampEntityId sup fs k).1 g0 now reg)
                (storeEntity (stampEntityId sup fs k).1 g0 now reg')
              cases hA : stampEntities cfg now sup rest (stampEntityId sup fs k).2
                  (storeEntity (stampEntityId sup fs k).1 g0 now reg) with
              | mk regA resA =>
                  cases hB : stampEntities cfg now sup rest (stampEntityId sup fs k).2
                      (storeEntity (stampEntityId sup fs k).1 g0 now reg') with
                  | mk regB resB =>
                      rw [hA, hB] at h1
                      have h2 : resA = resB := h1
                      subst h2
                      cases resA with
                      | error e => rfl
                      | ok pr =>
                          cases pr with
                          | mk tl k2 => rfl
      | null => rfl
      | bool b => rfl
      | num q => rfl
      | str s => rfl
      | arr items => rfl

theorem stampRelationships_snd_indep (cfg : OntologyConfig) (now : ℚ) (sup : Nat → String) :
    ∀ (l : List Json) (k : Nat) (reg reg' : ObjRegistry),
    (stampRelationships cfg now sup l k reg).2 = (stampRelationships cfg now sup l k reg').2 := by
  intro l
  induction l with
  | nil => intro k reg reg'; rfl
  | cons j rest ih =>
      intro k reg reg'
      cases j with
      | obj fs =>
          simp only [stampRelationships]
          have h1 := ih (stampRelId sup fs k).2
            (create_relationship_graph_data (stampRelId sup fs k).1 cfg now reg).2
            (create_relationship_graph_data (stampRelId sup fs k).1 cfg now reg').2
          cases hA : stampRelationships cfg now sup rest (stampRelId sup fs k).2
              (create_relationship_graph_data (stampRelId sup fs k).1 cfg now reg).2 with
          | mk regA resA =>
              cases hB : stampRelationships cfg now sup rest (stampRelId sup fs k).2
                  (create_relationship_graph_data (stampRelId sup fs k).1 cfg now reg').2 with
              | mk regB resB =>
                  rw [hA, hB] at h1
                  have h2 : resA = resB := h1
                  subst h2
                  cases resA with
                  | error e => rfl
                  | ok pr =>
                      cases pr with
                      | mk tl k2 =>
                          dsimp only
                          rw [create_relationship_fst (stampRelId sup fs k).1 cfg now reg reg']
      | null => rfl
      | bool b => rfl
      | num q => rfl
      | str s => rfl
      | arr items => rfl

theorem processSlot_snd_indep (client : Bool) (onts : List (String × OntologyConfig))
    (g : GlobalState) (ont db : Option String) (embed : Option (String → List ℚ))
    (s : SlotInput) (i : Nat) (reg reg' : ObjRegistry) :
    (processSlot client onts g ont db embed s i reg).2
      = (processSlot client onts g ont db embed s i reg').2 := by
  unfold processSlot
  cases extract_graph_with_llm client onts g ont s.text s.llm with
  | error e => rfl
  | ok graph =>
      dsimp only
      cases pyIterItems graph.entities with
      | error e => rfl
      | ok ents =>
          dsimp only
          have h1 := stampEntities_snd_indep (get_ontology_by_name onts g ont) s.now s.sup
            ents 0 reg reg'
          cases hA : stampEntities (get_ontology_by_name onts g ont) s.now s.sup ents 0 reg with
          | mk reg1 res1 =>
              cases hB : stampEntities (get_ontology_by_name onts g ont) s.now s.sup
                  ents 0 reg' with
              | mk reg1' res1' =>
                  rw [hA, hB] at h1
                  have h2 : res1 = res1' := h1
                  subst h2
                  cases res1 with
                  | error e => rfl
                  | ok pr1 =>
                      cases pr1 with
                      | mk ents2 k1 =>
                          dsimp only
                          cases pyIterItems graph.relationships with
                          | error e => rfl
                          | ok rels =>
                              dsimp only
                              have h3 := stampRelationships_snd_indep
                                (get_ontology_by_name onts g ont) s.now s.sup rels k1 reg1 reg1'
                              cases hC : stampRelationships (get_ontology_by_name onts g ont)
                                  s.now s.sup rels k1 reg1 with
                              | mk reg2 res2 =>
                                  cases hD : stampRelationships (get_ontology_by_name onts g ont)
                                      s.now s.sup rels k1 reg1' with
                                  | mk reg2' res2' =>
                                      rw [hC, hD] at h3
                                      have h4 : res2 = res2' := h3
                                      subst h4
                                      cases res2 with
                                      | error e => rfl
                                      | ok pr2 =>
                                          cases pr2 with
                                          | mk rels2 k2 =>
                                              dsimp only
                                              cases validateAll toEntityRec ents2 with
                                              | error e => rfl
                                              | ok es =>
                                                  dsimp only
                                                  cases validateAll toRelRec rels2 with
                                                  | error e => rfl
                                                  | ok rs => rfl

theorem processSlot_index (client : Bool) (onts : List (String × OntologyConfig))
    (g : GlobalState) (ont db : Option String) (embed : Option (String → List ℚ))
    (s : SlotInput) (i : Nat) (reg : ObjRegistry) :
    (processSlot client onts g ont db embed s i reg).2
      = match (processSlot client onts g ont db embed s 0 reg).2 with
        | .ok r => .ok (withSlotIndex r i)
        | .error e => .error e := by
  unfold processSlot
  cases extract_graph_with_llm client onts g ont s.text s.llm with
  | error e => rfl
  | ok graph =>
      dsimp only
      cases pyIterItems graph.entities with
      | error e => rfl
      | ok ents =>
          dsimp only
          cases stampEntities (get_ontology_by_name onts g ont) s.now s.sup ents 0 reg with
          | mk reg1 res1 =>
              cases res1 with
              | error e => rfl
              | ok pr1 =>
                  cases pr1 with
                  | mk ents2 k1 =>
                      dsimp only
                      cases pyIterItems graph.relationships with
                      | error e => rfl
                      | ok rels =>
                          dsimp only
                          cases stampRelationships (get_ontology_by_name onts g ont) s.now s.sup
                              rels k1 reg1 with
                          | mk reg2 res2 =>
                              cases res2 with
                              | error e => rfl
                              | ok pr2 =>
                                  cases pr2 with
                                  | mk rels2 k2 =>
                                      dsimp only
                                      cases validateAll toEntityRec ents2 with
                                      | error e => rfl
                                      | ok es =>
                                          dsimp only
                                          cases validateAll toRelRec rels2 with
                                          | error e => rfl
                                          | ok rs => rfl

theorem placeholder_index (ont db : Option String) (s : SlotInput) (i : Nat) (e : SlotError) :
    withSlotIndex (placeholderResponse ont db s 0 e) i = placeholderResponse ont db s i e := rfl

theorem slotResult_index (client : Bool) (onts : List (String × OntologyConfig))
    (g : GlobalState) (ont db : Option String) (embed : Option (String → List ℚ))
    (s : SlotInput) (i : Nat) :
    slotResult client onts g ont db embed s i
      = withSlotIndex (slotResult client onts g ont db embed s 0) i := by
  unfold slotResult
  rw [processSlot_index client onts g ont db embed s i []]
  cases (processSlot client onts g ont db embed s 0 []).2 with
  | ok r => rfl
  | error e => exact (placeholder_index ont db s i e).symm

theorem batchGo_eq (client : Bool) (onts : List (String × OntologyConfig)) (g : GlobalState)
    (ont db : Option String) (embed : Option (String → List ℚ)) :
    ∀ (slots : List SlotInput) (i : Nat) (reg : ObjRegistry),
    (batchGo client onts g ont db embed slots i reg).1
      = slotResultsFrom client onts g ont db embed i slots := by
  intro slots
  induction slots with
  | nil => intro i reg; rfl
  | cons s rest ih =>
      intro i reg
      show (let step := processSlot client onts g ont db embed s i reg
            let r := match step.2 with
              | .ok out => out
              | .error e => placeholderResponse ont db s i e
            let tail := batchGo client onts g ont db embed rest (i + 1) step.1
            (r :: tail.1, tail.2)).1
        = _
      simp only [slotResultsFrom]
      rw [processSlot_snd_indep client onts g ont db embed s i reg [],
        ih (i + 1) (processSlot client onts g ont db embed s i reg).1]
      rfl

theorem slotResultsFrom_length (client : Bool) (onts : List (String × OntologyConfig))
    (g : GlobalState) (ont db : Option String) (embed : Option (String → List ℚ)) :
    ∀ (slots : List SlotInput) (i : Nat),
    (slotResultsFrom client onts g ont db embed i slots).length = slots.length := by
  intro slots
  induction slots with
  | nil => intro i; rfl
  | cons s rest ih =>
      intro i
      simp only [slotResultsFrom, List.length_cons, ih]

theorem slotResultsFrom_getD (client : Bool) (onts : List (String × OntologyConfig))
    (g : GlobalState) (ont db : Option String) (embed : Option (String → List ℚ)) :
    ∀ (slots : List SlotInput) (i j : Nat), j < slots.length →
    (slotResultsFrom client onts g ont db embed i slots).getD j dummyResponse
      = slotResult client onts g ont db embed (slots.getD j dummySlot) (i + j) := by
  intro slots
  induction slots with
  | nil =>
      intro i j hj
      simp at hj
  | cons s rest ih =>
      intro i j hj
      cases j with
      | zero => simp [slotResultsFrom, List.getD]
      | succ j' =>
          have hj' : j' < rest.length := by
            simpa [Nat.succ_lt_succ_iff] using hj
          have := ih (i + 1) j' hj'
          simp only [slotResultsFrom, List.getD_cons_succ, this]
          congr 1
          omega

theorem errNote_ne (msg : String) : "Error processing text: " ++ msg ≠ "" := by
  intro h
  have h2 := congrArg String.length h
  rw [String.length_append] at h2
  have h3 : ("Error processing text: " : String).length = 23 := rfl
  have h4 : ("" : String).length = 0 := rfl
  rw [h3, h4] at h2
  omega

/-- Counterexample to C2 as stated: in a batch where the first document fails,
the second (successful) slot's result is not literally "the same as if that
text were processed alone" — its metadata records `batch_index = 1`, while the
standalone run records `batch_index = 0`. -/
theorem C2_counterexample :
    ((batch_extract_graph true onts0 gEmpty none none none [failSlot, okSlot] []).1.getD 1
        dummyResponse)
      ≠ ((batch_extract_graph true onts0 gEmpty none none none [okSlot] []).1.getD 0
        dummyResponse) := by
  intro h
  have h2 := congrArg (fun r => jsonGet r.graph_metadata "batch_index") h
  have h3 : (some (Json.num 1) : Option Json) = some (Json.num 0) := h2
  have h4 : Json.num 1 = Json.num 0 := Option.some.inj h3
  have h5 : (1 : ℚ) = 0 := by injection h4
  norm_num at h5

/-- Claim C2 (amended): batch extraction returns exactly one result per input
text, in input order; a slot whose pipeline raises is replaced by a
placeholder with `entities = []`, `relationships = []` and a non-empty
diagnostic note; and every slot's result equals the result of processing that
text alone (same LLM outcome and random draws) up to the slot position
recorded in its `graph_metadata` (`batch_index`/`text_index`). -/
theorem C2_claim :
    ∀ (client : Bool) (onts : List (String × OntologyConfig)) (g : GlobalState)
      (ont db : Option String) (embed : Option (String → List ℚ))
      (slots : List SlotInput) (reg : ObjRegistry) (i : Nat),
    ((batch_extract_graph client onts g ont db embed slots reg).1.length = slots.length)
    ∧ (i < slots.length →
        (batch_extract_graph client onts g ont db embed slots reg).1.getD i dummyResponse
          = withSlotIndex
              ((batch_extract_graph client onts g ont db embed
                  [slots.getD i dummySlot] []).1.getD 0 dummyResponse) i)
    ∧ (∀ e, i < slots.length →
        (processSlot client onts g ont db embed (slots.getD i dummySlot) i []).2 = .error e →
        ((batch_extract_graph client onts g ont db embed slots reg).1.getD i
            dummyResponse).entities = []
        ∧ ((batch_extract_graph client onts g ont db embed slots reg).1.getD i
            dummyResponse).relationships = []
        ∧ ((batch_extract_graph client onts g ont db embed slots reg).1.getD i
            dummyResponse).refinement_info ≠ "") := by
  intro client onts g ont db embed slots reg i
  have hb : (batch_extract_graph client onts g ont db embed slots reg).1
      = slotResultsFrom client onts g ont db embed 0 slots :=
    batchGo_eq client onts g ont db embed slots 0 reg
  have hb1 : (batch_extract_graph client onts g ont db embed [slots.getD i dummySlot] []).1
      = slotResultsFrom client onts g ont db embed 0 [slots.getD i dummySlot] :=
    batchGo_eq client onts g ont db embed [slots.getD i dummySlot] 0 []
  refine ⟨?_, ?_, ?_⟩
  · rw [hb, slotResultsFrom_length]
  · intro h
    rw [hb, slotResultsFrom_getD client onts g ont db embed slots 0 i h, hb1]
    have h0 : (slotResultsFrom client onts g ont db embed
        0 [slots.getD i dummySlot]).getD 0 dummyResponse
          = slotResult client onts g ont db embed (slots.getD i dummySlot) 0 := rfl
    rw [h0, Nat.zero_add]
    exact slotResult_index client onts g ont db embed (slots.getD i dummySlot) i
  · intro e h herr
    rw [hb, slotResultsFrom_getD client onts g ont db embed slots 0 i h, Nat.zero_add]
    unfold slotResult
    rw [herr]
    exact ⟨rfl, rfl, errNote_ne _⟩

/-- Witness for the amended C2: a two-document batch whose first document's
LLM call fails still returns two results in order; the failed slot is an empty
placeholder with a diagnostic, and the successful slot matches its standalone
run up to the recorded batch index. -/
theorem C2_witness :
    ((batch_extract_graph true onts0 gEmpty none none none [failSlot, okSlot] []).1.length = 2)
    ∧ ((batch_extract_graph true onts0 gEmpty none none none [failSlot, okSlot] []).1.getD 1
          dummyResponse
        = withSlotIndex
            ((batch_extract_graph true onts0 gEmpty none none none [okSlot] []).1.getD 0
              dummyResponse) 1)
    ∧ (((batch_extract_graph true onts0 gEmpty none none none [failSlot, okSlot] []).1.getD 0
          dummyResponse).entities = []
        ∧ ((batch_extract_graph true onts0 gEmpty none none none [failSlot, okSlot] []).1.getD 0
            dummyResponse).relationships = []
        ∧ ((batch_extract_graph true onts0 gEmpty none none none [failSlot, okSlot] []).1.getD 0
            dummyResponse).refinement_info ≠ "") := by
  have h1 := C2_claim true onts0 gEmpty none none none [failSlot, okSlot] [] 1
  have h0 := C2_claim true onts0 gEmpty none none none [failSlot, okSlot] [] 0
  exact ⟨h1.1, h1.2.1 (by norm_num),
    h0.2.2 (.extract (.extraction (.transport "boom"))) (by norm_num) rfl⟩
